import Mathlib

/-!
Verification of the binsdpy binary-similarity library.

The library reduces two equal-length binary feature vectors (with an
optional mask restricting which positions are compared) to the 2x2
contingency tally (a, b, c, d) and evaluates closed-form coefficient
formulas over that tally.  Binary vectors are embedded as `List Bool`.
Exact coefficient arithmetic is carried out in `ℚ` (or `ℝ` where the
source applies `math.sqrt`); a Python `ZeroDivisionError` is modelled,
where a claim is about it, by an `Option`-valued variant returning `none`.
-/

set_option maxHeartbeats 1000000

namespace Binsdpy

/-- Modelled from the spec: the repository's `binsdpy/utils.py` (which
defines `operational_taxonomic_units`) is not among the provided sources;
the spec states that the comparison ranges over the positions of `x` and
`y`, restricted, when a mask is supplied, to the positions where the mask
is 1.  `includedPairs` lists the pairs `(x[i], y[i])` at the included
positions, in order. -/
def includedPairs (x y : List Bool) : Option (List Bool) → List (Bool × Bool)
  | none => List.zip x y
  | some m => (List.zip (List.zip x y) m).filterMap
      (fun q => if q.2 then some q.1 else none)

/-- Count of included positions with x[i] = 1 and y[i] = 1 (co-presence). -/
def countA (x y : List Bool) (mask : Option (List Bool)) : Nat :=
  (includedPairs x y mask).countP (fun p => p.1 && p.2)

/-- Count of included positions with x[i] = 1 and y[i] = 0 (present only in x). -/
def countB (x y : List Bool) (mask : Option (List Bool)) : Nat :=
  (includedPairs x y mask).countP (fun p => p.1 && !p.2)

/-- Count of included positions with x[i] = 0 and y[i] = 1 (present only in y). -/
def countC (x y : List Bool) (mask : Option (List Bool)) : Nat :=
  (includedPairs x y mask).countP (fun p => !p.1 && p.2)

/-- Count of included positions with x[i] = 0 and y[i] = 0 (co-absence). -/
def countD (x y : List Bool) (mask : Option (List Bool)) : Nat :=
  (includedPairs x y mask).countP (fun p => !p.1 && !p.2)

/-- Modelled from the spec: the counting reduction
`operational_taxonomic_units` of `binsdpy/utils.py` (not among the provided
sources), producing the contingency tally (a, b, c, d) over the included
positions. -/
def operational_taxonomic_units (x y : List Bool) (mask : Option (List Bool)) :
    Nat × Nat × Nat × Nat :=
  (countA x y mask, countB x y mask, countC x y mask, countD x y mask)

/-- Sum a + b + c + d of a contingency tally. -/
def tallySum (t : Nat × Nat × Nat × Nat) : Nat :=
  t.1 + t.2.1 + t.2.2.1 + t.2.2.2

/-- Number of 1-bits of a binary vector. -/
def popcount (m : List Bool) : Nat :=
  m.countP (fun b => b)

/-- Error raised by the counting reduction on inputs of differing lengths. -/
inductive OtuError where
  | lengthMismatch
deriving DecidableEq

/-- Modelled from the spec: the counting reduction fails with a
LengthMismatch error, before any tally is produced, when x and y differ in
length or the mask differs in length from x and y; otherwise it returns
the tally. -/
def otuChecked (x y : List Bool) (mask : Option (List Bool)) :
    Except OtuError (Nat × Nat × Nat × Nat) :=
  if x.length ≠ y.length then Except.error OtuError.lengthMismatch
  else
    match mask with
    | none => Except.ok (operational_taxonomic_units x y none)
    | some m =>
        if m.length ≠ x.length then Except.error OtuError.lengthMismatch
        else Except.ok (operational_taxonomic_units x y (some m))

/-- Projection of a vector onto the positions where the mask is 1, keeping
the surviving positions in their original order. -/
def project (x m : List Bool) : List Bool :=
  (List.zip x m).filterMap (fun q => if q.2 then some q.1 else none)

lemma countP_four_partition (ps : List (Bool × Bool)) :
    ps.countP (fun p => p.1 && p.2) + ps.countP (fun p => p.1 && !p.2) +
      ps.countP (fun p => !p.1 && p.2) + ps.countP (fun p => !p.1 && !p.2) =
      ps.length := by
  induction ps with
  | nil => rfl
  | cons p ps ih =>
      rcases p with ⟨px, py⟩
      cases px <;> cases py <;>
        simp [List.countP_cons, List.length_cons] <;> omega

lemma tallySum_eq_length (x y : List Bool) (mask : Option (List Bool)) :
    tallySum (operational_taxonomic_units x y mask) =
      (includedPairs x y mask).length := by
  simpa [tallySum, operational_taxonomic_units, countA, countB, countC,
    countD] using countP_four_partition (includedPairs x y mask)

lemma includedPairs_none_length (x y : List Bool) (h : x.length = y.length) :
    (includedPairs x y none).length = x.length := by
  simp [includedPairs, List.length_zip, h]

lemma includedPairs_some_length (x y m : List Bool)
    (hxy : x.length = y.length) (hm : m.length = x.length) :
    (includedPairs x y (some m)).length = popcount m := by
  induction x generalizing y m with
  | nil =>
      cases y with
      | nil =>
          cases m with
          | nil => rfl
          | cons mb ms => simp at hm
      | cons yb ys => simp at hxy
  | cons xb xs ih =>
      cases y with
      | nil => simp at hxy
      | cons yb ys =>
          cases m with
          | nil => simp at hm
          | cons mb ms =>
              have hxy' : xs.length = ys.length := by
                simpa using hxy
              have hm' : ms.length = xs.length := by
                simpa using hm
              have hrec := ih ys ms hxy' hm'
              simp only [includedPairs, popcount] at hrec
              cases mb <;>
                simp [includedPairs, popcount, List.countP_cons, hrec]

lemma includedPairs_project (x y m : List Bool)
    (hxy : x.length = y.length) (hm : m.length = x.length) :
    includedPairs x y (some m) = List.zip (project x m) (project y m) := by
  induction x generalizing y m with
  | nil =>
      cases y with
      | nil =>
          cases m with
          | nil => rfl
          | cons mb ms => simp at hm
      | cons yb ys => simp at hxy
  | cons xb xs ih =>
      cases y with
      | nil => simp at hxy
      | cons yb ys =>
          cases m with
          | nil => simp at hm
          | cons mb ms =>
              have hxy' : xs.length = ys.length := by simpa using hxy
              have hm' : ms.length = xs.length := by simpa using hm
              have hrec := ih ys ms hxy' hm'
              simp only [includedPairs, project] at hrec ⊢
              cases mb <;> simp [hrec]

lemma includedPairs_none_swap (x y : List Bool) :
    includedPairs y x none = (includedPairs x y none).map Prod.swap := by
  simp [includedPairs, List.zip_swap]

lemma countP_map_swap (p : Bool × Bool → Bool) (l : List (Bool × Bool)) :
    (l.map Prod.swap).countP p = l.countP (fun q => p q.swap) := by
  induction l with
  | nil => rfl
  | cons q l ih => simp [List.countP_cons, ih]

lemma countP_includedPairs_swap (p : Bool × Bool → Bool) (x y : List Bool) :
    (includedPairs y x none).countP p =
      (includedPairs x y none).countP (fun q => p q.swap) := by
  rw [includedPairs_none_swap, countP_map_swap]

lemma countA_swap (x y : List Bool) : countA y x none = countA x y none := by
  rw [countA, countP_includedPairs_swap]
  refine List.countP_congr ?_
  intro q _
  rcases q with ⟨q1, q2⟩
  simp [Prod.swap, Bool.and_comm]

lemma countB_swap (x y : List Bool) : countB y x none = countC x y none := by
  rw [countB, countP_includedPairs_swap]
  refine List.countP_congr ?_
  intro q _
  rcases q with ⟨q1, q2⟩
  simp [Prod.swap, and_comm]

lemma countC_swap (x y : List Bool) : countC y x none = countB x y none := by
  rw [countC, countP_includedPairs_swap]
  refine List.countP_congr ?_
  intro q _
  rcases q with ⟨q1, q2⟩
  simp [Prod.swap, and_comm]

lemma countD_swap (x y : List Bool) : countD y x none = countD x y none := by
  rw [countD, countP_includedPairs_swap]
  refine List.countP_congr ?_
  intro q _
  rcases q with ⟨q1, q2⟩
  simp [Prod.swap, Bool.and_comm]

namespace similarity

/-- Embedding of `jaccard` from `binsdpy/similarity.py`: a / (a + b + c).
The source takes no mask argument and passes none to the reduction. -/
def jaccard (x y : List Bool) : ℚ :=
  match operational_taxonomic_units x y none with
  | (a, b, c, _) => (a : ℚ) / ((a : ℚ) + (b : ℚ) + (c : ℚ))

/-- Embedding of `dice` from `binsdpy/similarity.py`: 2a / (2a + b + c). -/
def dice (x y : List Bool) : ℚ :=
  match operational_taxonomic_units x y none with
  | (a, b, c, _) => (2 * (a : ℚ)) / (2 * (a : ℚ) + (b : ℚ) + (c : ℚ))

/-- Embedding of `smc` from `binsdpy/similarity.py`: (a + d) / (a + b + c + d). -/
def smc (x y : List Bool) : ℚ :=
  match operational_taxonomic_units x y none with
  | (a, b, c, d) =>
      ((a : ℚ) + (d : ℚ)) / ((a : ℚ) + (b : ℚ) + (c : ℚ) + (d : ℚ))

/-- Embedding of `kulczynski2` from `binsdpy/similarity.py`:
((a/2) * (2a + b + c)) / ((a + b) * (a + c)). -/
def kulczynski2 (x y : List Bool) : ℚ :=
  match operational_taxonomic_units x y none with
  | (a, b, c, _) =>
      (((a : ℚ) / 2) * (2 * (a : ℚ) + (b : ℚ) + (c : ℚ))) /
        (((a : ℚ) + (b : ℚ)) * ((a : ℚ) + (c : ℚ)))

/-- Embedding of `driver_kroeber` from `binsdpy/similarity.py`:
(a/2) * (1/(a + b) + 1/(a + c)). -/
def driver_kroeber (x y : List Bool) : ℚ :=
  match operational_taxonomic_units x y none with
  | (a, b, c, _) =>
      ((a : ℚ) / 2) *
        (1 / ((a : ℚ) + (b : ℚ)) + 1 / ((a : ℚ) + (c : ℚ)))

/-- Embedding of `pearson1` from `binsdpy/similarity.py`:
(n * (a d - b c)^2) / ((a+b)(a+c)(b+d)(c+d)) with n = a + b + c + d. -/
def pearson1 (x y : List Bool) : ℚ :=
  match operational_taxonomic_units x y none with
  | (a, b, c, d) =>
      (((a : ℚ) + b + c + d) * ((a : ℚ) * d - (b : ℚ) * c) ^ 2) /
        (((a : ℚ) + b) * ((a : ℚ) + c) * ((b : ℚ) + d) * ((c : ℚ) + d))

/-- Embedding of `pearson2` from `binsdpy/similarity.py`: it recomputes the
tally, sets n = a + b + c + d, obtains x_2 by calling `pearson1` on the
same x, y, and returns sqrt(x_2 / (n + x_2)). -/
noncomputable def pearson2 (x y : List Bool) : ℝ :=
  match operational_taxonomic_units x y none with
  | (a, b, c, d) =>
      let n : ℝ := (a : ℝ) + (b : ℝ) + (c : ℝ) + (d : ℝ)
      let x_2 : ℝ := ((pearson1 x y : ℚ) : ℝ)
      Real.sqrt (x_2 / (n + x_2))

/-- Embedding of `cosine` from `binsdpy/similarity.py`:
a / sqrt((a + b) * (a + c)).  In the source this raises ZeroDivisionError
exactly when sqrt((a+b)(a+c)) is zero, i.e. when (a+b)(a+c) = 0; that
error is modelled as `none`. -/
noncomputable def cosine (x y : List Bool) : Option ℝ :=
  match operational_taxonomic_units x y none with
  | (a, b, c, _) =>
      if (a + b) * (a + c) = 0 then none
      else some ((a : ℝ) / Real.sqrt (((a : ℝ) + b) * ((a : ℝ) + c)))

/-- Embedding of `kulczynski1` from `binsdpy/similarity.py`: a / (b + c).
In the source this raises ZeroDivisionError exactly when b + c = 0; that
error is modelled as `none`. -/
def kulczynski1 (x y : List Bool) : Option ℚ :=
  match operational_taxonomic_units x y none with
  | (a, b, c, _) =>
      if b + c = 0 then none else some ((a : ℚ) / ((b : ℚ) + (c : ℚ)))

end similarity

namespace distance

/-- Embedding of `hamming` from `binsdpy/distance.py`: b + c. -/
def hamming (x y : List Bool) : ℚ :=
  match operational_taxonomic_units x y none with
  | (_, b, c, _) => (b : ℚ) + (c : ℚ)

/-- Embedding of `euclid` from `binsdpy/distance.py`: sqrt(b + c). -/
noncomputable def euclid (x y : List Bool) : ℝ :=
  match operational_taxonomic_units x y none with
  | (_, b, c, _) => Real.sqrt ((b : ℝ) + (c : ℝ))

/-- Embedding of `squared_euclid` from `binsdpy/distance.py`:
sqrt((b + c)^2). -/
noncomputable def squared_euclid (x y : List Bool) : ℝ :=
  match operational_taxonomic_units x y none with
  | (_, b, c, _) => Real.sqrt (((b : ℝ) + (c : ℝ)) ^ 2)

/-- Embedding of `canberra` from `binsdpy/distance.py`: b + c. -/
def canberra (x y : List Bool) : ℚ :=
  match operational_taxonomic_units x y none with
  | (_, b, c, _) => (b : ℚ) + (c : ℚ)

/-- Embedding of `manhattan` from `binsdpy/distance.py`: b + c. -/
def manhattan (x y : List Bool) : ℚ :=
  match operational_taxonomic_units x y none with
  | (_, b, c, _) => (b : ℚ) + (c : ℚ)

/-- Embedding of `cityblock` from `binsdpy/distance.py`: b + c. -/
def cityblock (x y : List Bool) : ℚ :=
  match operational_taxonomic_units x y none with
  | (_, b, c, _) => (b : ℚ) + (c : ℚ)

/-- Embedding of `minkowski` from `binsdpy/distance.py`: b + c. -/
def minkowski (x y : List Bool) : ℚ :=
  match operational_taxonomic_units x y none with
  | (_, b, c, _) => (b : ℚ) + (c : ℚ)

end distance

namespace selected

/-- Embedding of `jaccard` from `binsdpy/similarity_selected.py`:
a / (a + b + c), where the tally is taken with the given optional mask. -/
def jaccard (x y : List Bool) (mask : Option (List Bool)) : ℚ :=
  match operational_taxonomic_units x y mask with
  | (a, b, c, _) => (a : ℚ) / ((a : ℚ) + (b : ℚ) + (c : ℚ))

/-- Embedding of `sw_jaccard` from `binsdpy/similarity_selected.py`:
3a / (3a + b + c), where the tally is taken with the given optional mask. -/
def sw_jaccard (x y : List Bool) (mask : Option (List Bool)) : ℚ :=
  match operational_taxonomic_units x y mask with
  | (a, b, c, _) => (3 * (a : ℚ)) / (3 * (a : ℚ) + (b : ℚ) + (c : ℚ))

/-- Embedding of `kulczynski2` from `binsdpy/similarity_selected.py`:
0.5 * ((a / (a + b)) + (a / (a + c))). -/
def kulczynski2 (x y : List Bool) (mask : Option (List Bool)) : ℚ :=
  match operational_taxonomic_units x y mask with
  | (a, b, c, _) =>
      (0.5 : ℚ) *
        ((a : ℚ) / ((a : ℚ) + (b : ℚ)) + (a : ℚ) / ((a : ℚ) + (c : ℚ)))

/-- Embedding of `pearson1` from `binsdpy/similarity_selected.py`:
(n * (a d - b c)^2) / ((a+b)(a+c)(b+d)(c+d)) with n = a + b + c + d. -/
def pearson1 (x y : List Bool) (mask : Option (List Bool)) : ℚ :=
  match operational_taxonomic_units x y mask with
  | (a, b, c, d) =>
      (((a : ℚ) + b + c + d) * ((a : ℚ) * d - (b : ℚ) * c) ^ 2) /
        (((a : ℚ) + b) * ((a : ℚ) + c) * ((b : ℚ) + d) * ((c : ℚ) + d))

/-- Embedding of `pearson2` from `binsdpy/similarity_selected.py`: it
recomputes the tally, obtains x_2 by calling `pearson1` on the same
x, y, mask, and returns sqrt(x_2 / (a + b + c + d + x_2)). -/
noncomputable def pearson2 (x y : List Bool) (mask : Option (List Bool)) : ℝ :=
  match operational_taxonomic_units x y mask with
  | (a, b, c, d) =>
      let x_2 : ℝ := ((pearson1 x y mask : ℚ) : ℝ)
      Real.sqrt (x_2 / ((a : ℝ) + (b : ℝ) + (c : ℝ) + (d : ℝ) + x_2))

end selected

/-- C1: for every pair of binary vectors x, y of equal length L, the
counting reduction returns four non-negative numbers (non-negativity holds
by the `Nat` type of the tally) with a + b + c + d = L when the mask is
absent, and a + b + c + d equal to the number of 1-bits of the mask when a
mask of length L is supplied. -/
theorem tally_conservation (x y m : List Bool)
    (hxy : x.length = y.length) (hm : m.length = x.length) :
    tallySum (operational_taxonomic_units x y none) = x.length ∧
    tallySum (operational_taxonomic_units x y (some m)) = popcount m := by
  constructor
  · rw [tallySum_eq_length, includedPairs_none_length x y hxy]
  · rw [tallySum_eq_length, includedPairs_some_length x y m hxy hm]

/-- Witness for C1 at x = [1,1,0,0], y = [1,0,0,1], mask = [1,1,0,1]. -/
theorem tally_conservation_witness :
    tallySum (operational_taxonomic_units [true, true, false, false]
      [true, false, false, true] none) = 4 ∧
    tallySum (operational_taxonomic_units [true, true, false, false]
      [true, false, false, true] (some [true, true, false, true])) = 3 := by
  have h := tally_conservation [true, true, false, false]
    [true, false, false, true] [true, true, false, true]
    (by decide) (by decide)
  exact ⟨h.1, h.2⟩

/-- C4: on inputs of differing lengths, and on a mask whose length differs
from that of x and y, the counting reduction fails with a LengthMismatch
error before any tally is produced; it never truncates or pads. -/
theorem length_mismatch_error (x y mm : List Bool) (mask : Option (List Bool)) :
    (x.length ≠ y.length →
      otuChecked x y mask = Except.error OtuError.lengthMismatch) ∧
    (mm.length ≠ x.length →
      otuChecked x y (some mm) = Except.error OtuError.lengthMismatch) := by
  constructor
  · intro h
    simp [otuChecked, h]
  · intro h
    by_cases hxy : x.length = y.length
    · have h2 : mm.length ≠ y.length := by
        rw [← hxy]; exact h
      simp [otuChecked, hxy, h2]
    · simp [otuChecked, hxy]

/-- Witness for C4: x = [1], y = [] of differing lengths, and a mask
[1, 1] whose length differs from that of x = y = [1]. -/
theorem length_mismatch_error_witness :
    otuChecked [true] [] none = Except.error OtuError.lengthMismatch ∧
    otuChecked [true] [true] (some [true, true]) =
      Except.error OtuError.lengthMismatch := by
  exact ⟨(length_mismatch_error [true] [] [] none).1 (by decide),
    (length_mismatch_error [true] [true] [true, true] none).2 (by decide)⟩

/-- C2: on x = [1,1,0,0], y = [1,0,0,1] with no mask, the tally is
(1, 1, 1, 1), jaccard is 1/3, smc is 0.5 and hamming is 2. -/
theorem concrete_scenario :
    operational_taxonomic_units [true, true, false, false]
      [true, false, false, true] none = (1, 1, 1, 1) ∧
    similarity.jaccard [true, true, false, false]
      [true, false, false, true] = 1 / 3 ∧
    similarity.smc [true, true, false, false]
      [true, false, false, true] = 0.5 ∧
    distance.hamming [true, true, false, false]
      [true, false, false, true] = 2 := by
  have hA : countA [true, true, false, false] [true, false, false, true] none
      = 1 := by decide
  have hB : countB [true, true, false, false] [true, false, false, true] none
      = 1 := by decide
  have hC : countC [true, true, false, false] [true, false, false, true] none
      = 1 := by decide
  have hD : countD [true, true, false, false] [true, false, false, true] none
      = 1 := by decide
  refine ⟨?_, ?_, ?_, ?_⟩
  · simp [operational_taxonomic_units, hA, hB, hC, hD]
  · simp only [similarity.jaccard, operational_taxonomic_units, hA, hB, hC, hD]
    norm_num
  · simp only [similarity.smc, operational_taxonomic_units, hA, hB, hC, hD]
    norm_num
  · simp only [distance.hamming, operational_taxonomic_units, hA, hB, hC, hD]
    norm_num

/-- C7: for every pair of equal-length binary vectors, the
documented-symmetric coefficients jaccard, dice and smc of
`binsdpy/similarity.py` are invariant under swapping their arguments:
swapping exchanges the counts b and c while fixing a and d, and the three
formulas are symmetric in b and c. -/
theorem documented_symmetric_coefficients (x y : List Bool)
    (h : x.length = y.length) :
    similarity.jaccard x y = similarity.jaccard y x ∧
    similarity.dice x y = similarity.dice y x ∧
    similarity.smc x y = similarity.smc y x := by
  have ha := countA_swap x y
  have hb := countB_swap x y
  have hc := countC_swap x y
  have hd := countD_swap x y
  refine ⟨?_, ?_, ?_⟩ <;>
    simp only [similarity.jaccard, similarity.dice, similarity.smc,
      operational_taxonomic_units, ha, hb, hc, hd] <;>
    ring_nf

/-- Witness for C7 at x = [1,1,0,0], y = [1,0,0,1]. -/
theorem documented_symmetric_coefficients_witness :
    ([true, true, false, false] : List Bool).length =
      ([true, false, false, true] : List Bool).length ∧
    (similarity.jaccard [true, true, false, false] [true, false, false, true] =
        similarity.jaccard [true, false, false, true] [true, true, false, false] ∧
      similarity.dice [true, true, false, false] [true, false, false, true] =
        similarity.dice [true, false, false, true] [true, true, false, false] ∧
      similarity.smc [true, true, false, false] [true, false, false, true] =
        similarity.smc [true, false, false, true] [true, true, false, false]) := by
  exact ⟨by decide, documented_symmetric_coefficients
    [true, true, false, false] [true, false, false, true] (by decide)⟩

/-- C3: for every x, y, mask of equal length, the mask-accepting
coefficients jaccard and sw_jaccard of `binsdpy/similarity_selected.py`
computed with the mask equal the same coefficients computed without a mask
on the projections of x and y onto the positions where the mask is 1. -/
theorem mask_projection_equivalence (x y m : List Bool)
    (hxy : x.length = y.length) (hm : m.length = x.length) :
    selected.jaccard x y (some m) =
      selected.jaccard (project x m) (project y m) none ∧
    selected.sw_jaccard x y (some m) =
      selected.sw_jaccard (project x m) (project y m) none := by
  have hp : includedPairs x y (some m) =
      includedPairs (project x m) (project y m) none := by
    rw [includedPairs_project x y m hxy hm]
    rfl
  constructor <;>
    simp only [selected.jaccard, selected.sw_jaccard,
      operational_taxonomic_units, countA, countB, countC, countD, hp]

/-- Witness for C3 at x = [1,1,0,0], y = [1,0,0,1], mask = [1,1,0,1]. -/
theorem mask_projection_equivalence_witness :
    selected.jaccard [true, true, false, false] [true, false, false, true]
        (some [true, true, false, true]) =
      selected.jaccard
        (project [true, true, false, false] [true, true, false, true])
        (project [true, false, false, true] [true, true, false, true]) none ∧
    selected.sw_jaccard [true, true, false, false] [true, false, false, true]
        (some [true, true, false, true]) =
      selected.sw_jaccard
        (project [true, true, false, false] [true, true, false, true])
        (project [true, false, false, true] [true, true, false, true]) none := by
  exact mask_projection_equivalence [true, true, false, false]
    [true, false, false, true] [true, true, false, true] (by decide) (by decide)

/-- C9: for every pair of equal-length binary vectors, the distance
entries hamming, canberra, manhattan, cityblock, minkowski and
squared_euclid of `binsdpy/distance.py` all equal b + c (squared_euclid
computes sqrt((b+c)^2) = b + c), so the six entries coincide pairwise and
each equals the square of euclid. -/
theorem distance_entries_coincide (x y : List Bool)
    (h : x.length = y.length) :
    distance.hamming x y = distance.canberra x y ∧
    distance.canberra x y = distance.manhattan x y ∧
    distance.manhattan x y = distance.cityblock x y ∧
    distance.cityblock x y = distance.minkowski x y ∧
    ((distance.hamming x y : ℚ) : ℝ) = distance.squared_euclid x y ∧
    distance.squared_euclid x y = (distance.euclid x y) ^ 2 := by
  refine ⟨rfl, rfl, rfl, rfl, ?_, ?_⟩
  · simp only [distance.hamming, distance.squared_euclid,
      operational_taxonomic_units]
    rw [Real.sqrt_sq (by positivity)]
    push_cast
    ring
  · simp only [distance.squared_euclid, distance.euclid,
      operational_taxonomic_units]
    rw [Real.sqrt_sq (by positivity), Real.sq_sqrt (by positivity)]

/-- Witness for C9 at x = [1,1,0,0], y = [1,0,0,1]. -/
theorem distance_entries_coincide_witness :
    ([true, true, false, false] : List Bool).length =
      ([true, false, false, true] : List Bool).length ∧
    ((distance.hamming [true, true, false, false] [true, false, false, true] :
        ℚ) : ℝ) =
      distance.squared_euclid [true, true, false, false]
        [true, false, false, true] ∧
    distance.squared_euclid [true, true, false, false]
        [true, false, false, true] =
      (distance.euclid [true, true, false, false] [true, false, false, true])
        ^ 2 := by
  have h := distance_entries_coincide [true, true, false, false]
    [true, false, false, true] (by decide)
  exact ⟨by decide, h.2.2.2.2.1, h.2.2.2.2.2⟩

/-- C10: in exact rational arithmetic, whenever a + b > 0 and a + c > 0,
the three differently written formulas `similarity.kulczynski2`,
`similarity.driver_kroeber` and `selected.kulczynski2` (mask absent) all
compute a * (2a + b + c) / (2 * (a + b) * (a + c)). -/
theorem kulczynski2_variants (x y : List Bool)
    (hab : countA x y none + countB x y none ≠ 0)
    (hac : countA x y none + countC x y none ≠ 0) :
    similarity.kulczynski2 x y = similarity.driver_kroeber x y ∧
    similarity.kulczynski2 x y = selected.kulczynski2 x y none ∧
    similarity.kulczynski2 x y =
      ((countA x y none : ℚ) *
          (2 * (countA x y none : ℚ) + (countB x y none : ℚ) +
            (countC x y none : ℚ))) /
        (2 * (((countA x y none : ℚ) + (countB x y none : ℚ)) *
          ((countA x y none : ℚ) + (countC x y none : ℚ)))) := by
  have hab' : (countA x y none : ℚ) + (countB x y none : ℚ) ≠ 0 := by
    exact_mod_cast hab
  have hac' : (countA x y none : ℚ) + (countC x y none : ℚ) ≠ 0 := by
    exact_mod_cast hac
  have h05 : (0.5 : ℚ) = 1 / 2 := by norm_num
  refine ⟨?_, ?_, ?_⟩ <;>
    simp only [similarity.kulczynski2, similarity.driver_kroeber,
      selected.kulczynski2, operational_taxonomic_units, h05] <;>
    field_simp <;>
    try ring
  all_goals tauto

/-- Witness for C10 at x = [1,1,0,0], y = [1,0,0,1], where
(a, b, c) = (1, 1, 1) and all three formulas give 3/8. -/
theorem kulczynski2_variants_witness :
    countA [true, true, false, false] [true, false, false, true] none +
        countB [true, true, false, false] [true, false, false, true] none ≠ 0 ∧
    similarity.kulczynski2 [true, true, false, false]
        [true, false, false, true] =
      similarity.driver_kroeber [true, true, false, false]
        [true, false, false, true] ∧
    similarity.kulczynski2 [true, true, false, false]
        [true, false, false, true] =
      selected.kulczynski2 [true, true, false, false]
        [true, false, false, true] none := by
  have h := kulczynski2_variants [true, true, false, false]
    [true, false, false, true] (by decide) (by decide)
  exact ⟨by decide, h.1, h.2.1⟩

/-- C5: pearson2 equals sqrt(p / (n + p)) where p is the value of pearson1
invoked on the same x, y, mask and n is the tally total; in the source the
dependent coefficient obtains p by calling pearson1 as a sub-computation.
Stated for the mask-accepting pair of `binsdpy/similarity_selected.py` and
for the maskless pair of `binsdpy/similarity.py`, under the guard that
pearson1's denominator is non-zero (pearson1 defined). -/
theorem pearson2_two_stage (x y : List Bool) (mask : Option (List Bool))
    (hdef : (countA x y mask + countB x y mask) *
        (countA x y mask + countC x y mask) *
        (countB x y mask + countD x y mask) *
        (countC x y mask + countD x y mask) ≠ 0) :
    selected.pearson2 x y mask =
      Real.sqrt (((selected.pearson1 x y mask : ℚ) : ℝ) /
        ((tallySum (operational_taxonomic_units x y mask) : ℝ) +
          ((selected.pearson1 x y mask : ℚ) : ℝ))) ∧
    similarity.pearson2 x y =
      Real.sqrt (((similarity.pearson1 x y : ℚ) : ℝ) /
        ((tallySum (operational_taxonomic_units x y none) : ℝ) +
          ((similarity.pearson1 x y : ℚ) : ℝ))) := by
  constructor
  · simp only [selected.pearson2, operational_taxonomic_units, tallySum]
    congr 2
    push_cast
    ring
  · simp only [similarity.pearson2, operational_taxonomic_units, tallySum]
    congr 2
    push_cast
    ring

/-- Witness for C5 at x = [1,1,0,0], y = [1,0,0,1], mask absent, where the
tally is (1, 1, 1, 1) and pearson1's denominator is 16. -/
theorem pearson2_two_stage_witness :
    (countA [true, true, false, false] [true, false, false, true] none +
          countB [true, true, false, false] [true, false, false, true] none) *
        (countA [true, true, false, false] [true, false, false, true] none +
          countC [true, true, false, false] [true, false, false, true] none) *
        (countB [true, true, false, false] [true, false, false, true] none +
          countD [true, true, false, false] [true, false, false, true] none) *
        (countC [true, true, false, false] [true, false, false, true] none +
          countD [true, true, false, false] [true, false, false, true] none)
      ≠ 0 ∧
    selected.pearson2 [true, true, false, false] [true, false, false, true]
        none =
      Real.sqrt (((selected.pearson1 [true, true, false, false]
          [true, false, false, true] none : ℚ) : ℝ) /
        ((tallySum (operational_taxonomic_units [true, true, false, false]
            [true, false, false, true] none) : ℝ) +
          ((selected.pearson1 [true, true, false, false]
            [true, false, false, true] none : ℚ) : ℝ))) := by
  have h := pearson2_two_stage [true, true, false, false]
    [true, false, false, true] none (by decide)
  exact ⟨by decide, h.1⟩

/-- C6: when a coefficient's denominator evaluates to zero the call
surfaces the division-by-zero error (modelled as `none`), never a result
silently coerced to 0 or 1: cosine errors when a + b = 0 and kulczynski1
errors when b + c = 0. -/
theorem degenerate_denominator_errors (x y : List Bool) :
    (countA x y none + countB x y none = 0 →
      similarity.cosine x y = none) ∧
    (countB x y none + countC x y none = 0 →
      similarity.kulczynski1 x y = none) := by
  constructor
  · intro h
    have hz : (countA x y none + countB x y none) *
        (countA x y none + countC x y none) = 0 := by
      rw [h, Nat.zero_mul]
    simp [similarity.cosine, operational_taxonomic_units, hz]
  · intro h
    simp [similarity.kulczynski1, operational_taxonomic_units, h]

/-- Witness for C6 at x = y = [0, 0], where a = b = c = 0. -/
theorem degenerate_denominator_errors_witness :
    countA [false, false] [false, false] none +
        countB [false, false] [false, false] none = 0 ∧
    similarity.cosine [false, false] [false, false] = none ∧
    similarity.kulczynski1 [false, false] [false, false] = none := by
  exact ⟨by decide,
    (degenerate_denominator_errors [false, false] [false, false]).1 (by decide),
    (degenerate_denominator_errors [false, false] [false, false]).2 (by decide)⟩

/-- C8 evidence: `jaccard` of `binsdpy/similarity.py` takes no mask
argument and always compares all positions — on the test vectors it
returns 1/3, the all-positions value — whereas honoring the mask
[1, 0, 0, 1], as the mask-accepting catalog entry of
`binsdpy/similarity_selected.py` does, gives the different value 1/2. -/
theorem similarity_jaccard_has_no_mask :
    similarity.jaccard [true, true, false, false] [true, false, false, true] =
      1 / 3 ∧
    selected.jaccard [true, true, false, false] [true, false, false, true]
      (some [true, false, false, true]) = 1 / 2 := by
  have hA : countA [true, true, false, false] [true, false, false, true] none
      = 1 := by decide
  have hB : countB [true, true, false, false] [true, false, false, true] none
      = 1 := by decide
  have hC : countC [true, true, false, false] [true, false, false, true] none
      = 1 := by decide
  have hA2 : countA [true, true, false, false] [true, false, false, true]
      (some [true, false, false, true]) = 1 := by decide
  have hB2 : countB [true, true, false, false] [true, false, false, true]
      (some [true, false, false, true]) = 0 := by decide
  have hC2 : countC [true, true, false, false] [true, false, false, true]
      (some [true, false, false, true]) = 1 := by decide
  constructor
  · simp only [similarity.jaccard, operational_taxonomic_units, hA, hB, hC]
    norm_num
  · simp only [selected.jaccard, operational_taxonomic_units, hA2, hB2, hC2]
    norm_num

end Binsdpy
